import Mathlib

/-!
Shallow embedding of `src/FileOrganizer/file_organizer.py` (the core module;
the Tk GUI in `file_organizer_gui.py` is a thin presentation wrapper that
calls into this logic and is out of scope).

The filesystem is modelled as a snapshot: a list of existing directories and
a list of regular files (parent directory, final name component, content).
Directory enumeration order is the order of the file list.  Environment
failures of `shutil.move` (permission denied, file vanished, disk full) are
modelled by a fault oracle passed to the run: `fault f = some e` means moving
file `f` raises an exception rendered as the string `e`.  `mkdir(exist_ok=True)`
at line 65 runs outside the `try` and can itself raise (missing destination
parent, or a non-directory occupying the category path); that exception is
uncaught and aborts the run, which the model tracks explicitly.
`datetime.now()` is modelled by passing the current time as a `PyDateTime`
argument.
-/

namespace FileOrg

/-- A filesystem path, as its list of name components from the root. -/
abbrev FPath := List String

/-- A regular file: parent directory, final name component, and content. -/
structure FileEnt where
  dir : FPath
  name : String
  content : String
deriving DecidableEq, Repr

/-- A filesystem snapshot: the directories and the regular files that exist. -/
structure FS where
  dirs : List FPath
  files : List FileEnt
deriving DecidableEq, Repr

/-- A directory exists at path `p`. -/
def FS.isDirAt (fs : FS) (p : FPath) : Bool := fs.dirs.contains p

/-- A regular file named `n` exists directly inside directory `d`. -/
def FS.isFileAt (fs : FS) (d : FPath) (n : String) : Bool :=
  fs.files.any (fun f => f.dir == d && f.name == n)

/-- Python `Path.exists()`: something (directory or regular file) lives at `p`. -/
def FS.pathExists (fs : FS) (p : FPath) : Bool :=
  fs.isDirAt p || fs.files.any (fun f => f.dir ++ [f.name] == p)

/-- Python `(d / n).exists()`: the child `n` of directory `d` is occupied,
either by a regular file or by a directory. -/
def FS.existsAt (fs : FS) (d : FPath) (n : String) : Bool :=
  fs.isFileAt d n || fs.isDirAt (d ++ [n])

/-- Index of the last occurrence of `c` (Python `str.rfind`), `none` if absent. -/
def rfindChar : List Char → Char → Option Nat
  | [], _ => none
  | x :: xs, c =>
    match rfindChar xs c with
    | some i => some (i + 1)
    | none => if x = c then some 0 else none

/-- Python `pathlib.PurePath.suffix` of a final name component: the substring
from the last dot onward, provided that dot is neither the first nor the last
character (`0 < i < len(name) - 1` in CPython); otherwise the empty string. -/
def pySuffix (name : String) : String :=
  match rfindChar name.toList '.' with
  | some i => if 0 < i ∧ i + 1 < name.toList.length then String.mk (name.toList.drop i) else ""
  | none => ""

/-- Python `pathlib.PurePath.stem`: the name with `pySuffix` stripped. -/
def pyStem (name : String) : String :=
  match rfindChar name.toList '.' with
  | some i => if 0 < i ∧ i + 1 < name.toList.length then String.mk (name.toList.take i) else name
  | none => name

/-- Python `str.lower` on one character, over the ASCII range (every
extension in the table, and every extension the claims discuss, is ASCII). -/
def pyLowerChar (c : Char) : Char :=
  if 65 ≤ c.toNat ∧ c.toNat ≤ 90 then Char.ofNat (c.toNat + 32) else c

/-- Python `str.lower` (ASCII range). -/
def pyLower (s : String) : String := String.mk (s.toList.map pyLowerChar)

/-- The static category table of `file_organizer.py`, in declaration order
(Python dicts iterate in insertion order). -/
def FILE_CATEGORIES : List (String × List String) :=
  [ ("Images", [".jpg", ".jpeg", ".png", ".gif", ".bmp", ".svg", ".webp", ".ico", ".tiff"]),
    ("Videos", [".mp4", ".avi", ".mkv", ".mov", ".wmv", ".flv", ".webm", ".m4v", ".mpg", ".mpeg"]),
    ("Documents", [".pdf", ".doc", ".docx", ".txt", ".odt", ".xls", ".xlsx", ".ppt", ".pptx"]),
    ("Music", [".mp3", ".wav", ".flac", ".aac", ".ogg", ".wma", ".m4a", ".opus"]),
    ("Archives", [".zip", ".rar", ".7z", ".tar", ".gz", ".bz2", ".xz"]),
    ("Code", [".py", ".js", ".html", ".css", ".cpp", ".java", ".c", ".h", ".json", ".xml", ".sql"]),
    ("Executables", [".exe", ".msi", ".app", ".deb", ".rpm"]),
    ("Data", [".csv", ".json", ".xml", ".sql", ".db", ".sqlite"]) ]

/-- The first-match scan over `FILE_CATEGORIES` in `get_file_category`
(lines 33-36): label of the first category whose extension list contains the
already-lowercased extension, else the catch-all label. -/
def lookupCategory (extension : String) : String :=
  match FILE_CATEGORIES.find? (fun ce => ce.2.contains extension) with
  | some ce => ce.1
  | none => "Others"

/-- `FileOrganizer.get_file_category` (lines 30-36): lowercase the suffix of
the path's final name component, then scan the table.  Only the name (in fact
only its suffix) is consulted, never the parent directory or the content. -/
def get_file_category (f : FileEnt) : String :=
  lookupCategory (pyLower (pySuffix f.name))

/-- The classifier contract on a bare extension string, the `categoryOf` of
the specification: normalize to lowercase, then first-match scan. -/
def categoryOf (extension : String) : String :=
  lookupCategory (pyLower extension)

/-- A timestamp as produced by `datetime.now()`.  CPython guarantees
`MINYEAR = 1 ≤ year ≤ 9999 = MAXYEAR` and month, day, hour, minute,
second all below 100. -/
structure PyDateTime where
  year : Nat
  month : Nat
  day : Nat
  hour : Nat
  minute : Nat
  second : Nat
deriving DecidableEq, Repr

/-- The decimal digit character for `n % 10`. -/
def digitChar (n : Nat) : Char := Char.ofNat (48 + n % 10)

/-- Two-digit zero-padded decimal rendering (exact for `n < 100`). -/
def pad2 (n : Nat) : String := String.mk [digitChar (n / 10), digitChar n]

/-- Four-digit zero-padded decimal rendering (exact for `n < 10000`). -/
def pad4 (n : Nat) : String :=
  String.mk [digitChar (n / 1000), digitChar (n / 100), digitChar (n / 10), digitChar n]

/-- `datetime.now().strftime` with the format used at line 70: four-digit
year, two-digit month and day, an underscore, two-digit hour, minute, second.
Fixed-width zero-padding is exact for every value `datetime` can produce. -/
def strftimeTimestamp (t : PyDateTime) : String :=
  pad4 t.year ++ pad2 t.month ++ pad2 t.day ++ "_" ++
    pad2 t.hour ++ pad2 t.minute ++ pad2 t.second

/-- The mutable attributes of a `FileOrganizer` instance. -/
structure OrganizerState where
  source_dir : FPath
  destination_dir : FPath
  moved_files : List (String × String)
  errors : List (String × String)
deriving DecidableEq, Repr

/-- `FileOrganizer.__init__` (lines 24-28): destination defaults to the
source; the `moved_files` and `errors` lists start empty here, at
construction time, not per run. -/
def FileOrganizer.init (source : FPath) (dest : Option FPath) : OrganizerState :=
  { source_dir := source
    destination_dir := dest.getD source
    moved_files := []
    errors := [] }

/-- How one call of `organize_files` ends: the two early returns, normal
completion, or an uncaught exception escaping the call (`notADirectory` from
`iterdir()` at line 50, `raised` from `mkdir` at line 65, which sits outside
the `try` of lines 74-81). -/
inductive RunResult where
  | sourceNotFound
  | notADirectory
  | noFiles
  | completed
  | raised (e : String)
deriving DecidableEq, Repr

/-- Python `category_dir.mkdir(exist_ok=True)` at line 65 (default
`parents=False`): a no-op when a directory already occupies the path;
`FileExistsError` (not suppressed by `exist_ok`) when a non-directory
occupies it; `FileNotFoundError` when the parent directory is absent (an
absent-or-non-directory parent gives `FileNotFoundError`/`NotADirectoryError`
in CPython; both abort identically, modelled by the one error value);
otherwise the directory is created. -/
def pyMkdirExistOk (fs : FS) (parent : FPath) (name : String) : Except String FS :=
  if fs.isDirAt (parent ++ [name]) then Except.ok fs
  else if fs.isFileAt parent name then Except.error "FileExistsError"
  else if fs.isDirAt parent then
    Except.ok { fs with dirs := fs.dirs ++ [parent ++ [name]] }
  else Except.error "FileNotFoundError"

/-- The filesystem produced by a successful `mkdir(exist_ok=True)`. -/
def mkdirResult (fs : FS) (parent : FPath) (name : String) : FS :=
  if fs.isDirAt (parent ++ [name]) then fs
  else { fs with dirs := fs.dirs ++ [parent ++ [name]] }

/-- The success path of one non-dry-run loop iteration (lines 60-81), after
`mkdir` has succeeded: recompute the destination name on collision by
inserting the timestamp between stem and suffix, then attempt the move.  On
success the file is re-homed (an occupant at the exact final destination is
overwritten, POSIX rename semantics) and a success record is appended; on a
fault the filesystem keeps the file and a failure record is appended. -/
def processOneOk (fault : FileEnt → Option String) (now : PyDateTime)
    (st : OrganizerState) (fs : FS) (fc : FileEnt × String) :
    OrganizerState × FS :=
  let f := fc.1
  let category := fc.2
  let category_dir := st.destination_dir ++ [category]
  let fs1 : FS := mkdirResult fs st.destination_dir category
  let destName : String :=
    if fs1.existsAt category_dir f.name then
      pyStem f.name ++ "_" ++ strftimeTimestamp now ++ pySuffix f.name
    else f.name
  match fault f with
  | some e => ({ st with errors := st.errors ++ [(f.name, e)] }, fs1)
  | none =>
    let files2 := fs1.files.filter (fun g => !(g.dir == f.dir && g.name == f.name))
    let files3 := files2.filter (fun g => !(g.dir == category_dir && g.name == destName))
    ({ st with moved_files := st.moved_files ++ [(f.name, category)] },
     { fs1 with files := files3 ++ [{ dir := category_dir, name := destName, content := f.content }] })

/-- One iteration of the non-dry-run organize loop for one (file, category)
pair (lines 60-81).  `mkdir` at line 65 runs outside the `try`; when it
fails, the exception escapes `organize_files` uncaught, which the `Except`
error models.  Only `shutil.move` (inside the `try`) is recovered locally. -/
def processOne (fault : FileEnt → Option String) (now : PyDateTime)
    (st : OrganizerState) (fs : FS) (fc : FileEnt × String) :
    Except String (OrganizerState × FS) :=
  match pyMkdirExistOk fs st.destination_dir fc.2 with
  | Except.error e => Except.error e
  | Except.ok _ => Except.ok (processOneOk fault now st fs fc)

/-- The organize loop over the snapshot: each file is processed in turn; an
uncaught `mkdir` exception stops the loop at that file, keeping the records
and filesystem changes made so far. -/
def runLoop (fault : FileEnt → Option String) (now : PyDateTime) :
    List (FileEnt × String) → OrganizerState → FS →
    OrganizerState × FS × Option String
  | [], st, fs => (st, fs, none)
  | fc :: rest, st, fs =>
    match processOne fault now st fs fc with
    | Except.error e => (st, fs, some e)
    | Except.ok stfs => runLoop fault now rest stfs.1 stfs.2

/-- `FileOrganizer.organize_files` (lines 38-86).  Returns the updated
instance state, the resulting filesystem, how the run ended, and the dry-run
preview lines (name, category).  The source check at line 40 only tests
`exists()`; a source that exists but is not a directory passes it and then
`iterdir()` at line 50 raises `NotADirectoryError`, modelled as
`RunResult.notADirectory`.  A `mkdir` failure mid-loop escapes uncaught,
modelled as `RunResult.raised`, with the records accumulated so far. -/
def organize_files (fault : FileEnt → Option String) (now : PyDateTime)
    (st : OrganizerState) (fs : FS) (dry_run : Bool) :
    OrganizerState × FS × RunResult × List (String × String) :=
  if !(fs.pathExists st.source_dir) then
    (st, fs, RunResult.sourceNotFound, [])
  else if !(fs.isDirAt st.source_dir) then
    (st, fs, RunResult.notADirectory, [])
  else
    let files_to_organize : List (FileEnt × String) :=
      (fs.files.filter (fun f => f.dir == st.source_dir)).map (fun f => (f, get_file_category f))
    if files_to_organize.isEmpty then
      (st, fs, RunResult.noFiles, [])
    else if dry_run then
      (st, fs, RunResult.completed, files_to_organize.map (fun fc => (fc.1.name, fc.2)))
    else
      let res := runLoop fault now files_to_organize st fs
      (res.1, res.2.1,
        match res.2.2 with
        | some e => RunResult.raised e
        | none => RunResult.completed,
        [])

/-! ## Classifier theorems -/

/-- C5: for every extension that appears in exactly one category of the
table, `categoryOf` returns that category's label, after normalizing the
input to lowercase (so `.JPG` and `.jpg` classify identically). -/
theorem categoryOf_unique_extension (e cat : String) (exts : List String)
    (hmem : (cat, exts) ∈ FILE_CATEGORIES) (hin : pyLower e ∈ exts)
    (huniq : ∀ p ∈ FILE_CATEGORIES, pyLower e ∈ p.2 → p.1 = cat) :
    categoryOf e = cat := by
  have hsome : (FILE_CATEGORIES.find? (fun ce => ce.2.contains (pyLower e))).isSome := by
    rw [List.find?_isSome]
    exact ⟨(cat, exts), hmem, by simpa using hin⟩
  obtain ⟨ce, hce⟩ := Option.isSome_iff_exists.mp hsome
  have hmem2 := List.mem_of_find?_eq_some hce
  have hp : pyLower e ∈ ce.2 := by simpa using List.find?_some hce
  have hcat := huniq ce hmem2 hp
  unfold categoryOf lookupCategory
  rw [hce]
  exact hcat

/-- Witness for C5 at the concrete extensions `.JPG` and `.jpg`. -/
theorem categoryOf_unique_extension_witness :
    categoryOf ".JPG" = "Images" ∧ categoryOf ".jpg" = "Images" :=
  ⟨categoryOf_unique_extension ".JPG" "Images"
      [".jpg", ".jpeg", ".png", ".gif", ".bmp", ".svg", ".webp", ".ico", ".tiff"]
      (by decide) (by decide) (by decide),
   categoryOf_unique_extension ".jpg" "Images"
      [".jpg", ".jpeg", ".png", ".gif", ".bmp", ".svg", ".webp", ".ico", ".tiff"]
      (by decide) (by decide) (by decide)⟩

/-- C6: for every extension present in no category of the table,
`categoryOf` returns the catch-all label; the classifier is a total pure
function, so it always returns a label and has no side effects. -/
theorem categoryOf_unmatched (e : String)
    (h : ∀ p ∈ FILE_CATEGORIES, pyLower e ∉ p.2) :
    categoryOf e = "Others" := by
  have hnone : FILE_CATEGORIES.find? (fun ce => ce.2.contains (pyLower e)) = none := by
    rw [List.find?_eq_none]
    intro p hp
    simpa using h p hp
  unfold categoryOf lookupCategory
  rw [hnone]

/-- Witness for C6 at the concrete extension `.xyz`. -/
theorem categoryOf_unmatched_witness : categoryOf ".xyz" = "Others" :=
  categoryOf_unmatched ".xyz" (by decide)

/-- C7: the extensions `.json`, `.xml` and `.sql` each occur in both the
Code and the Data extension lists of the table, the Code entry is declared
before the Data entry, and the first-match scan therefore classifies all
three as Code. -/
theorem duplicate_extensions_first_match :
    (FILE_CATEGORIES.map Prod.fst
        = ["Images", "Videos", "Documents", "Music", "Archives", "Code", "Executables", "Data"]) ∧
    (FILE_CATEGORIES.any (fun p => p.1 == "Code" && p.2.contains ".json") = true ∧
     FILE_CATEGORIES.any (fun p => p.1 == "Data" && p.2.contains ".json") = true ∧
     categoryOf ".json" = "Code") ∧
    (FILE_CATEGORIES.any (fun p => p.1 == "Code" && p.2.contains ".xml") = true ∧
     FILE_CATEGORIES.any (fun p => p.1 == "Data" && p.2.contains ".xml") = true ∧
     categoryOf ".xml" = "Code") ∧
    (FILE_CATEGORIES.any (fun p => p.1 == "Code" && p.2.contains ".sql") = true ∧
     FILE_CATEGORIES.any (fun p => p.1 == "Data" && p.2.contains ".sql") = true ∧
     categoryOf ".sql" = "Code") := by decide

/-- C9: classification depends only on the lowercased extension: two files
whose names have equal suffixes after lowercasing get the same category,
whatever their base names, parent directories or contents. -/
theorem classification_extension_only (a b : FileEnt)
    (h : pyLower (pySuffix a.name) = pyLower (pySuffix b.name)) :
    get_file_category a = get_file_category b := by
  simp only [get_file_category, h]

/-- Witness for C9: two files with different directories, stems, contents
and extension case, classified identically. -/
theorem classification_extension_only_witness :
    get_file_category { dir := ["home", "u"], name := "photo.JPG", content := "aaa" }
      = get_file_category { dir := ["tmp"], name := "diagram.jpg", content := "bb" } :=
  classification_extension_only
    { dir := ["home", "u"], name := "photo.JPG", content := "aaa" }
    { dir := ["tmp"], name := "diagram.jpg", content := "bb" }
    (by decide)

/-! ## Source validation (claim C1) -/

/-- C1 (amended): with a source that is not a directory, no enumeration and
no per-file work happens and no success or failure record is added; when the
source is missing the run ends with the source-not-found report, but when a
non-directory entry (for example a regular file) occupies the source path the
`exists()` check at line 40 passes and the run instead stops with an
unhandled not-a-directory error from `iterdir()`, not with the
source-not-found condition. -/
theorem invalid_source_no_work (fault : FileEnt → Option String) (now : PyDateTime)
    (st : OrganizerState) (fs : FS) (dry_run : Bool)
    (h : fs.isDirAt st.source_dir = false) :
    (fs.pathExists st.source_dir = false ∧
       organize_files fault now st fs dry_run = (st, fs, RunResult.sourceNotFound, []))
    ∨ (fs.pathExists st.source_dir = true ∧
       organize_files fault now st fs dry_run = (st, fs, RunResult.notADirectory, [])) := by
  cases hex : fs.pathExists st.source_dir with
  | false => exact Or.inl ⟨rfl, by simp [organize_files, hex]⟩
  | true => exact Or.inr ⟨rfl, by simp [organize_files, hex, h]⟩

/-- Witness for C1 at a concrete missing source. -/
theorem invalid_source_no_work_witness :
    organize_files (fun _ => none) ⟨2024, 1, 1, 0, 0, 0⟩
        (FileOrganizer.init ["missing"] none) { dirs := [[]], files := [] } false
      = (FileOrganizer.init ["missing"] none, { dirs := [[]], files := [] },
         RunResult.sourceNotFound, []) := by
  rcases invalid_source_no_work (fun _ => none) ⟨2024, 1, 1, 0, 0, 0⟩
      (FileOrganizer.init ["missing"] none) { dirs := [[]], files := [] } false
      (by decide) with ⟨_, h2⟩ | ⟨h1, _⟩
  · exact h2
  · exact absurd h1 (by decide)

/-- A filesystem in which the source path `["src"]` is occupied by a regular
file, so it exists but is not a directory. -/
def fileAsSourceFS : FS :=
  { dirs := [[]], files := [{ dir := [], name := "src", content := "stuff" }] }

/-- C1 counterexample: on a source that exists but is not a directory the
run does not end with the source-not-found condition; it ends with the
unhandled not-a-directory error raised at enumeration, because line 40 only
checks `exists()`. -/
theorem source_file_not_reported_as_not_found :
    fileAsSourceFS.pathExists ["src"] = true ∧
    fileAsSourceFS.isDirAt ["src"] = false ∧
    (organize_files (fun _ => none) ⟨2024, 1, 1, 0, 0, 0⟩
        (FileOrganizer.init ["src"] none) fileAsSourceFS false).2.2.1
      = RunResult.notADirectory ∧
    (organize_files (fun _ => none) ⟨2024, 1, 1, 0, 0, 0⟩
        (FileOrganizer.init ["src"] none) fileAsSourceFS false).2.2.1
      ≠ RunResult.sourceNotFound := by decide

/-! ## Dry run (claim C3) -/

/-- C3: a preview run on a non-empty source directory changes nothing: the
instance state (hence the success and failure lists) and the filesystem are
returned exactly as they were, and the preview output lists every enumerated
file with the category it would be assigned. -/
theorem dry_run_no_mutation (fault : FileEnt → Option String) (now : PyDateTime)
    (st : OrganizerState) (fs : FS)
    (hdir : fs.isDirAt st.source_dir = true)
    (hne : fs.files.filter (fun f => f.dir == st.source_dir) ≠ []) :
    organize_files fault now st fs true
      = (st, fs, RunResult.completed,
         (fs.files.filter (fun f => f.dir == st.source_dir)).map
           (fun f => (f.name, get_file_category f))) := by
  have hex : fs.pathExists st.source_dir = true := by
    unfold FS.pathExists
    rw [hdir]
    rfl
  have hmapne : (fs.files.filter (fun f => f.dir == st.source_dir)).map
      (fun f => (f, get_file_category f)) ≠ [] := by
    simpa using hne
  simp [organize_files, hex, hdir, List.isEmpty_iff, hmapne, List.map_map, Function.comp]

/-- Witness filesystem for the dry-run claim. -/
def dryFS : FS :=
  { dirs := [[], ["s"]],
    files := [{ dir := ["s"], name := "photo.png", content := "P" },
              { dir := ["s"], name := "song.mp3", content := "S" }] }

/-- Witness for C3 at a concrete two-file source. -/
theorem dry_run_no_mutation_witness :
    organize_files (fun _ => none) ⟨2024, 1, 1, 0, 0, 0⟩
        (FileOrganizer.init ["s"] none) dryFS true
      = (FileOrganizer.init ["s"] none, dryFS, RunResult.completed,
         (dryFS.files.filter (fun f => f.dir == ["s"])).map
           (fun f => (f.name, get_file_category f))) :=
  dry_run_no_mutation (fun _ => none) ⟨2024, 1, 1, 0, 0, 0⟩
    (FileOrganizer.init ["s"] none) dryFS (by decide) (by decide)

/-! ## Per-file step lemmas -/

theorem mkdirResult_files (fs : FS) (p : FPath) (n : String) :
    (mkdirResult fs p n).files = fs.files := by
  unfold mkdirResult
  split <;> rfl

theorem mkdirResult_isDirAt (fs : FS) (p : FPath) (n : String) (q : FPath)
    (h : fs.isDirAt q = true) : (mkdirResult fs p n).isDirAt q = true := by
  unfold mkdirResult
  split
  · exact h
  · unfold FS.isDirAt at h ⊢
    simp at h ⊢
    exact Or.inl h

theorem mkdirResult_eq_of_dir (fs : FS) (p : FPath) (n : String)
    (h : fs.isDirAt (p ++ [n]) = true) : mkdirResult fs p n = fs := by
  unfold mkdirResult
  rw [if_pos h]

theorem pyMkdirExistOk_ok (fs : FS) (p : FPath) (n : String)
    (hp : fs.isDirAt p = true) (hnf : fs.isFileAt p n = false) :
    pyMkdirExistOk fs p n = Except.ok (mkdirResult fs p n) := by
  unfold pyMkdirExistOk mkdirResult
  by_cases hd : fs.isDirAt (p ++ [n]) = true
  · rw [if_pos hd, if_pos hd]
  · rw [if_neg hd, if_neg hd, hnf, hp]
    simp

theorem processOne_eq_ok (fault : FileEnt → Option String) (now : PyDateTime)
    (st : OrganizerState) (fs : FS) (fc : FileEnt × String)
    (hp : fs.isDirAt st.destination_dir = true)
    (hnf : fs.isFileAt st.destination_dir fc.2 = false) :
    processOne fault now st fs fc = Except.ok (processOneOk fault now st fs fc) := by
  unfold processOne
  rw [pyMkdirExistOk_ok fs st.destination_dir fc.2 hp hnf]

theorem processOne_eq_ok_of_dir (fault : FileEnt → Option String) (now : PyDateTime)
    (st : OrganizerState) (fs : FS) (fc : FileEnt × String)
    (hd : fs.isDirAt (st.destination_dir ++ [fc.2]) = true) :
    processOne fault now st fs fc = Except.ok (processOneOk fault now st fs fc) := by
  unfold processOne pyMkdirExistOk
  rw [if_pos hd]

theorem processOne_ok_eq (fault : FileEnt → Option String) (now : PyDateTime)
    (st : OrganizerState) (fs : FS) (fc : FileEnt × String) (stfs : OrganizerState × FS)
    (h : processOne fault now st fs fc = Except.ok stfs) :
    stfs = processOneOk fault now st fs fc := by
  unfold processOne at h
  cases hmk : pyMkdirExistOk fs st.destination_dir fc.2 with
  | error e =>
    rw [hmk] at h
    exact Except.noConfusion h
  | ok fs1 =>
    rw [hmk] at h
    exact (Except.ok.inj h).symm

theorem processOneOk_state_ok (fault : FileEnt → Option String) (now : PyDateTime)
    (st : OrganizerState) (fs : FS) (fc : FileEnt × String) (h : fault fc.1 = none) :
    (processOneOk fault now st fs fc).1
      = { st with moved_files := st.moved_files ++ [(fc.1.name, fc.2)] } := by
  simp [processOneOk, h]

theorem processOneOk_state_fault (fault : FileEnt → Option String) (now : PyDateTime)
    (st : OrganizerState) (fs : FS) (fc : FileEnt × String) (e : String)
    (h : fault fc.1 = some e) :
    (processOneOk fault now st fs fc).1
      = { st with errors := st.errors ++ [(fc.1.name, e)] } := by
  simp [processOneOk, h]

theorem processOneOk_files_fault (fault : FileEnt → Option String) (now : PyDateTime)
    (st : OrganizerState) (fs : FS) (fc : FileEnt × String) (e : String)
    (h : fault fc.1 = some e) :
    (processOneOk fault now st fs fc).2.files = fs.files := by
  simp [processOneOk, h, mkdirResult_files]

/-- A file untouched by one successful step of the loop stays in place: it
is neither the file being moved nor anything living in the target category
directory. -/
theorem processOneOk_files_mem (fault : FileEnt → Option String) (now : PyDateTime)
    (st : OrganizerState) (fs : FS) (fc : FileEnt × String) (g : FileEnt)
    (hg : g ∈ fs.files)
    (h1 : g.dir ≠ fc.1.dir ∨ g.name ≠ fc.1.name)
    (h2 : g.dir ≠ st.destination_dir ++ [fc.2]) :
    g ∈ (processOneOk fault now st fs fc).2.files := by
  cases h : fault fc.1 with
  | some e =>
    rw [processOneOk_files_fault fault now st fs fc e h]
    exact hg
  | none =>
    simp only [processOneOk, h, mkdirResult_files]
    refine List.mem_append.mpr (Or.inl ?_)
    rw [List.mem_filter]
    refine ⟨List.mem_filter.mpr ⟨hg, ?_⟩, ?_⟩
    · simp only [Bool.not_eq_true', Bool.and_eq_false_iff, beq_eq_false_iff_ne, ne_eq]
      rcases h1 with h1 | h1
      · exact Or.inl h1
      · exact Or.inr h1
    · simp only [Bool.not_eq_true', Bool.and_eq_false_iff, beq_eq_false_iff_ne, ne_eq]
      exact Or.inl h2

theorem processOneOk_count (fault : FileEnt → Option String) (now : PyDateTime)
    (st : OrganizerState) (fs : FS) (fc : FileEnt × String) :
    (processOneOk fault now st fs fc).1.moved_files.length
        + (processOneOk fault now st fs fc).1.errors.length
      = st.moved_files.length + st.errors.length + 1 := by
  cases h : fault fc.1 with
  | some e => simp [processOneOk, h]; omega
  | none => simp [processOneOk, h]; omega

theorem processOneOk_dirs_const (fault : FileEnt → Option String) (now : PyDateTime)
    (st : OrganizerState) (fs : FS) (fc : FileEnt × String) :
    (processOneOk fault now st fs fc).1.source_dir = st.source_dir
    ∧ (processOneOk fault now st fs fc).1.destination_dir = st.destination_dir := by
  cases h : fault fc.1 with
  | some e =>
    rw [processOneOk_state_fault fault now st fs fc e h]
    exact ⟨rfl, rfl⟩
  | none =>
    rw [processOneOk_state_ok fault now st fs fc h]
    exact ⟨rfl, rfl⟩

theorem processOneOk_isDirAt (fault : FileEnt → Option String) (now : PyDateTime)
    (st : OrganizerState) (fs : FS) (fc : FileEnt × String) (q : FPath)
    (h : fs.isDirAt q = true) :
    (processOneOk fault now st fs fc).2.isDirAt q = true := by
  cases hf : fault fc.1 with
  | some e =>
    simp only [processOneOk, hf]
    exact mkdirResult_isDirAt fs st.destination_dir fc.2 q h
  | none =>
    simp only [processOneOk, hf]
    exact mkdirResult_isDirAt fs st.destination_dir fc.2 q h

theorem append_singleton_ne (p : FPath) (x : String) : p ++ [x] ≠ p := by
  intro h
  have hlen := congrArg List.length h
  rw [List.length_append, List.length_singleton] at hlen
  omega

/-- A successful loop step never adds a regular file at a directory other
than its own category directory, so absence of a file elsewhere persists. -/
theorem processOneOk_isFileAt_preserved (fault : FileEnt → Option String) (now : PyDateTime)
    (st : OrganizerState) (fs : FS) (fc : FileEnt × String) (d : FPath) (x : String)
    (h : fs.isFileAt d x = false)
    (hd : st.destination_dir ++ [fc.2] ≠ d) :
    (processOneOk fault now st fs fc).2.isFileAt d x = false := by
  cases hf : fault fc.1 with
  | some e =>
    have hfiles := processOneOk_files_fault fault now st fs fc e hf
    unfold FS.isFileAt at h ⊢
    rw [hfiles]
    exact h
  | none =>
    simp only [processOneOk, hf, mkdirResult_files]
    unfold FS.isFileAt at h ⊢
    rw [List.any_eq_false] at h ⊢
    intro g hgmem
    rcases List.mem_append.mp hgmem with hgl | hgr
    · exact h g (List.mem_filter.mp (List.mem_filter.mp hgl).1).1
    · have hgdir : g.dir = st.destination_dir ++ [fc.2] := by
        have hsing := List.mem_singleton.mp hgr
        rw [hsing]
      intro hp2
      rw [Bool.and_eq_true, beq_iff_eq, beq_iff_eq] at hp2
      rw [hgdir] at hp2
      exact hd hp2.1

/-! ## Loop lemmas -/

theorem runLoop_extends (fault : FileEnt → Option String) (now : PyDateTime) :
    ∀ (l : List (FileEnt × String)) (st : OrganizerState) (fs : FS),
      ∃ m e,
        (runLoop fault now l st fs).1.moved_files = st.moved_files ++ m
        ∧ (runLoop fault now l st fs).1.errors = st.errors ++ e
  | [], st, fs => ⟨[], [], by simp [runLoop], by simp [runLoop]⟩
  | fc :: rest, st, fs => by
    cases hp : processOne fault now st fs fc with
    | error e =>
      exact ⟨[], [], by simp [runLoop, hp], by simp [runLoop, hp]⟩
    | ok stfs =>
      have hst : stfs = processOneOk fault now st fs fc :=
        processOne_ok_eq fault now st fs fc stfs hp
      obtain ⟨m, e, hm, he⟩ := runLoop_extends fault now rest stfs.1 stfs.2
      cases hf : fault fc.1 with
      | none =>
        have hs := processOneOk_state_ok fault now st fs fc hf
        refine ⟨(fc.1.name, fc.2) :: m, e, ?_, ?_⟩
        · simp only [runLoop, hp]
          rw [hm, hst, hs]
          simp
        · simp only [runLoop, hp]
          rw [he, hst, hs]
      | some err =>
        have hs := processOneOk_state_fault fault now st fs fc err hf
        refine ⟨m, (fc.1.name, err) :: e, ?_, ?_⟩
        · simp only [runLoop, hp]
          rw [hm, hst, hs]
        · simp only [runLoop, hp]
          rw [he, hst, hs]
          simp

/-- When the destination directory exists and no regular file occupies any
needed category path, every loop step succeeds and contributes exactly one
outcome record. -/
theorem runLoop_count_ok (fault : FileEnt → Option String) (now : PyDateTime) :
    ∀ (l : List (FileEnt × String)) (st : OrganizerState) (fs : FS),
      fs.isDirAt st.destination_dir = true →
      (∀ fc ∈ l, fs.isFileAt st.destination_dir fc.2 = false) →
      (runLoop fault now l st fs).1.moved_files.length
          + (runLoop fault now l st fs).1.errors.length
        = st.moved_files.length + st.errors.length + l.length
  | [], st, fs, _, _ => by simp [runLoop]
  | fc :: rest, st, fs, hd, hnb => by
    have hp := processOne_eq_ok fault now st fs fc hd (hnb fc (List.mem_cons_self fc rest))
    have hdc := (processOneOk_dirs_const fault now st fs fc).2
    have hd2 : (processOneOk fault now st fs fc).2.isDirAt
        (processOneOk fault now st fs fc).1.destination_dir = true := by
      rw [hdc]
      exact processOneOk_isDirAt fault now st fs fc st.destination_dir hd
    have hnb2 : ∀ fc2 ∈ rest, (processOneOk fault now st fs fc).2.isFileAt
        (processOneOk fault now st fs fc).1.destination_dir fc2.2 = false := by
      intro fc2 hmem
      rw [hdc]
      exact processOneOk_isFileAt_preserved fault now st fs fc st.destination_dir fc2.2
        (hnb fc2 (List.mem_cons_of_mem fc hmem)) (append_singleton_ne st.destination_dir fc.2)
    have ih := runLoop_count_ok fault now rest (processOneOk fault now st fs fc).1
      (processOneOk fault now st fs fc).2 hd2 hnb2
    have hcount := processOneOk_count fault now st fs fc
    simp only [runLoop, hp]
    rw [List.length_cons]
    omega

/-! ## Outcome accounting (claim C10) -/

/-- The C10 counterexample filesystem: two files in the source `s`, while
the destination directory `d` that the run will be pointed at is missing. -/
def c10FS : FS :=
  { dirs := [[], ["s"]],
    files := [{ dir := ["s"], name := "a.txt", content := "A" },
              { dir := ["s"], name := "b.txt", content := "B" }] }

/-- C10 counterexample: with a missing destination directory, the first
file's `mkdir` at line 65 raises an uncaught `FileNotFoundError` (it runs
outside the `try` with `parents=False`), aborting the run with zero outcome
records for a two-file snapshot — successes plus failures do not equal the
snapshot size. -/
theorem mkdir_abort_undercounts :
    (c10FS.files.filter (fun f => f.dir == ["s"])).length = 2
    ∧ (organize_files (fun _ => none) ⟨2024, 1, 1, 0, 0, 0⟩
        (FileOrganizer.init ["s"] (some ["d"])) c10FS false).1.moved_files.length
      + (organize_files (fun _ => none) ⟨2024, 1, 1, 0, 0, 0⟩
        (FileOrganizer.init ["s"] (some ["d"])) c10FS false).1.errors.length = 0
    ∧ (organize_files (fun _ => none) ⟨2024, 1, 1, 0, 0, 0⟩
        (FileOrganizer.init ["s"] (some ["d"])) c10FS false).2.2.1
      = RunResult.raised "FileNotFoundError"
    ∧ (organize_files (fun _ => none) ⟨2024, 1, 1, 0, 0, 0⟩
        (FileOrganizer.init ["s"] (some ["d"])) c10FS false).1.moved_files.length
      + (organize_files (fun _ => none) ⟨2024, 1, 1, 0, 0, 0⟩
        (FileOrganizer.init ["s"] (some ["d"])) c10FS false).1.errors.length
      ≠ (c10FS.files.filter (fun f => f.dir == ["s"])).length := by decide

/-- C10 (amended): in a non-preview run over a valid source, provided the
destination directory exists and no regular file occupies the category path
of any snapshot file (so the uncaught `mkdir` at line 65 cannot raise),
every enumerated regular file contributes exactly one outcome record, to the
success list or to the failure list, so the two lists together grow by
exactly the size of the enumeration snapshot; without that proviso the
`mkdir` exception aborts the run uncaught and later files yield no record. -/
theorem run_outcome_count (fault : FileEnt → Option String) (now : PyDateTime)
    (st : OrganizerState) (fs : FS)
    (hdir : fs.isDirAt st.source_dir = true)
    (hdest : fs.isDirAt st.destination_dir = true)
    (hnb : ∀ f ∈ fs.files.filter (fun f => f.dir == st.source_dir),
        fs.isFileAt st.destination_dir (get_file_category f) = false) :
    (organize_files fault now st fs false).1.moved_files.length
        + (organize_files fault now st fs false).1.errors.length
      = st.moved_files.length + st.errors.length
        + (fs.files.filter (fun f => f.dir == st.source_dir)).length := by
  have hex : fs.pathExists st.source_dir = true := by
    unfold FS.pathExists
    rw [hdir]
    rfl
  by_cases he : fs.files.filter (fun f => f.dir == st.source_dir) = []
  · simp [organize_files, hex, hdir, he]
  · have hmapne : (fs.files.filter (fun f => f.dir == st.source_dir)).map
        (fun f => (f, get_file_category f)) ≠ [] := by
      simpa using he
    have hnb2 : ∀ fc ∈ (fs.files.filter (fun f => f.dir == st.source_dir)).map
        (fun f => (f, get_file_category f)),
        fs.isFileAt st.destination_dir fc.2 = false := by
      intro fc hmem
      rcases List.mem_map.mp hmem with ⟨f, hf, rfl⟩
      exact hnb f hf
    have hcount := runLoop_count_ok fault now
      ((fs.files.filter (fun f => f.dir == st.source_dir)).map
        (fun f => (f, get_file_category f))) st fs hdest hnb2
    rw [List.length_map] at hcount
    simp only [organize_files, hex, hdir, Bool.not_true, Bool.false_eq_true, if_false,
      List.isEmpty_iff, hmapne, if_neg]
    simpa using hcount

/-- Witness for C10: a three-file source with one simulated permission
failure: two successes plus one failure account for all three files. -/
theorem run_outcome_count_witness :
    (organize_files
        (fun f => if f.name == "song.mp3" then some "Permission denied" else none)
        ⟨2024, 1, 1, 0, 0, 0⟩ (FileOrganizer.init ["s"] none)
        { dirs := [[], ["s"]],
          files := [{ dir := ["s"], name := "photo.png", content := "P" },
                    { dir := ["s"], name := "song.mp3", content := "S" },
                    { dir := ["s"], name := "notes.txt", content := "N" }] }
        false).1.moved_files.length
      + (organize_files
        (fun f => if f.name == "song.mp3" then some "Permission denied" else none)
        ⟨2024, 1, 1, 0, 0, 0⟩ (FileOrganizer.init ["s"] none)
        { dirs := [[], ["s"]],
          files := [{ dir := ["s"], name := "photo.png", content := "P" },
                    { dir := ["s"], name := "song.mp3", content := "S" },
                    { dir := ["s"], name := "notes.txt", content := "N" }] }
        false).1.errors.length
      = 0 + 0 + 3 :=
  run_outcome_count
    (fun f => if f.name == "song.mp3" then some "Permission denied" else none)
    ⟨2024, 1, 1, 0, 0, 0⟩ (FileOrganizer.init ["s"] none)
    { dirs := [[], ["s"]],
      files := [{ dir := ["s"], name := "photo.png", content := "P" },
                { dir := ["s"], name := "song.mp3", content := "S" },
                { dir := ["s"], name := "notes.txt", content := "N" }] }
    (by decide) (by decide) (by decide)

/-! ## Summary lifecycle (claim C8) -/

/-- C8 (amended): the success and failure lists start empty when the
organizer is constructed, and each `organize_files` call only appends its
own records to whatever the lists already hold; the lists are not re-created
at the start of a run, so on any organizer other than a freshly constructed
one the summary read after a run also retains records of earlier runs. -/
theorem summary_accumulates (source : FPath) (dest : Option FPath)
    (fault : FileEnt → Option String) (now : PyDateTime)
    (st : OrganizerState) (fs : FS) (dry_run : Bool) :
    ((FileOrganizer.init source dest).moved_files = []
        ∧ (FileOrganizer.init source dest).errors = [])
    ∧ ∃ m e,
        (organize_files fault now st fs dry_run).1.moved_files = st.moved_files ++ m
        ∧ (organize_files fault now st fs dry_run).1.errors = st.errors ++ e := by
  refine ⟨⟨rfl, rfl⟩, ?_⟩
  by_cases hex : fs.pathExists st.source_dir
  · by_cases hdir : fs.isDirAt st.source_dir
    · by_cases he : fs.files.filter (fun f => f.dir == st.source_dir) = []
      · refine ⟨[], [], ?_, ?_⟩ <;> simp [organize_files, hex, hdir, he]
      · have hmapne : (fs.files.filter (fun f => f.dir == st.source_dir)).map
            (fun f => (f, get_file_category f)) ≠ [] := by
          simpa using he
        cases dry_run with
        | true =>
          refine ⟨[], [], ?_, ?_⟩ <;>
            simp [organize_files, hex, hdir, List.isEmpty_iff, hmapne]
        | false =>
          obtain ⟨m, e, hm, herr⟩ := runLoop_extends fault now
            ((fs.files.filter (fun f => f.dir == st.source_dir)).map
              (fun f => (f, get_file_category f))) st fs
          refine ⟨m, e, ?_, ?_⟩ <;>
            · simp only [organize_files, hex, hdir, Bool.not_true, Bool.false_eq_true,
                if_false, List.isEmpty_iff, hmapne, if_neg]
              first
              | simpa using hm
              | simpa using herr
    · have hdir2 : fs.isDirAt st.source_dir = false := by simpa using hdir
      refine ⟨[], [], ?_, ?_⟩ <;> simp [organize_files, hex, hdir2]
  · have hex2 : fs.pathExists st.source_dir = false := by simpa using hex
    refine ⟨[], [], ?_, ?_⟩ <;> simp [organize_files, hex2]

/-- The first run of the C8 counterexample: a fresh organizer over a source
holding the single file `a.txt`. -/
def c8Run1 : OrganizerState × FS × RunResult × List (String × String) :=
  organize_files (fun _ => none) ⟨2024, 1, 1, 0, 0, 0⟩
    (FileOrganizer.init ["s"] none)
    { dirs := [[], ["s"]], files := [{ dir := ["s"], name := "a.txt", content := "A" }] }
    false

/-- The filesystem between the two C8 runs: the file `b.txt` arrives in the
source directory after the first run finished. -/
def c8FSBetween : FS :=
  { c8Run1.2.1 with
    files := c8Run1.2.1.files ++ [{ dir := ["s"], name := "b.txt", content := "B" }] }

/-- The second run of the C8 counterexample, on the same organizer instance. -/
def c8Run2 : OrganizerState × FS × RunResult × List (String × String) :=
  organize_files (fun _ => none) ⟨2024, 1, 2, 0, 0, 0⟩ c8Run1.1 c8FSBetween false

/-- C8 counterexample: after a second `organize_files` call on the same
organizer, the success list still contains the record of the first run's
file, so the summary of the second invocation is not created empty at the
start of that run. -/
theorem summary_not_reset_between_runs :
    c8Run1.1.moved_files = [("a.txt", "Documents")]
    ∧ c8Run2.1.moved_files = [("a.txt", "Documents"), ("b.txt", "Documents")]
    ∧ c8Run2.1.moved_files ≠ [("b.txt", "Documents")] := by decide

/-! ## Collision renaming (claim C2) -/

theorem length_strmk (l : List Char) : (String.mk l).length = l.length := rfl

theorem strftimeTimestamp_length (t : PyDateTime) : (strftimeTimestamp t).length = 15 := rfl

/-- The underscore in the timestamp sits between the date and time digits:
character 8 of the 15-character timestamp is the separator `_` and every
other character is a decimal digit. -/
theorem strftimeTimestamp_shape (t : PyDateTime) :
    (strftimeTimestamp t).toList.length = 15
    ∧ (strftimeTimestamp t).toList.get? 8 = some '_'
    ∧ ∀ i c, i ≠ 8 → (strftimeTimestamp t).toList.get? i = some c → (48 ≤ c.toNat ∧ c.toNat ≤ 57) := by
  refine ⟨?_, ?_, ?_⟩
  · rfl
  · rfl
  · intro i c hi hc
    have hl : (strftimeTimestamp t).toList =
        [digitChar (t.year / 1000), digitChar (t.year / 100), digitChar (t.year / 10),
         digitChar t.year, digitChar (t.month / 10), digitChar t.month,
         digitChar (t.day / 10), digitChar t.day, '_',
         digitChar (t.hour / 10), digitChar t.hour, digitChar (t.minute / 10),
         digitChar t.minute, digitChar (t.second / 10), digitChar t.second] := rfl
    rw [hl] at hc
    have hdigit : ∀ n, 48 ≤ (digitChar n).toNat ∧ (digitChar n).toNat ≤ 57 := by
      intro n
      have h10 : n % 10 < 10 := Nat.mod_lt _ (by omega)
      unfold digitChar
      set m := n % 10 with hm
      interval_cases m <;> decide
    match i, hc with
    | 0, hc => exact Option.some.inj hc ▸ hdigit _
    | 1, hc => exact Option.some.inj hc ▸ hdigit _
    | 2, hc => exact Option.some.inj hc ▸ hdigit _
    | 3, hc => exact Option.some.inj hc ▸ hdigit _
    | 4, hc => exact Option.some.inj hc ▸ hdigit _
    | 5, hc => exact Option.some.inj hc ▸ hdigit _
    | 6, hc => exact Option.some.inj hc ▸ hdigit _
    | 7, hc => exact Option.some.inj hc ▸ hdigit _
    | 8, hc => exact absurd rfl hi
    | 9, hc => exact Option.some.inj hc ▸ hdigit _
    | 10, hc => exact Option.some.inj hc ▸ hdigit _
    | 11, hc => exact Option.some.inj hc ▸ hdigit _
    | 12, hc => exact Option.some.inj hc ▸ hdigit _
    | 13, hc => exact Option.some.inj hc ▸ hdigit _
    | 14, hc => exact Option.some.inj hc ▸ hdigit _
    | n + 15, hc => exact Option.noConfusion hc

theorem pyStem_add_pySuffix_length (name : String) :
    (pyStem name).length + (pySuffix name).length = name.length := by
  unfold pyStem pySuffix
  cases h : rfindChar name.toList '.' with
  | none => dsimp only; simp
  | some i =>
    dsimp only
    by_cases hc : 0 < i ∧ i + 1 < name.toList.length
    · rw [if_pos hc, if_pos hc, length_strmk, length_strmk,
        List.length_take, List.length_drop]
      have hlen : name.length = name.toList.length := rfl
      omega
    · rw [if_neg hc, if_neg hc]
      simp

/-- The timestamped name is never equal to the original name: it is exactly
sixteen characters longer. -/
theorem timestamped_name_ne (name : String) (t : PyDateTime) :
    pyStem name ++ "_" ++ strftimeTimestamp t ++ pySuffix name ≠ name := by
  intro h
  have hlen := congrArg String.length h
  rw [String.length_append, String.length_append, String.length_append,
    strftimeTimestamp_length] at hlen
  have hsum := pyStem_add_pySuffix_length name
  have hu : ("_" : String).length = 1 := rfl
  omega

theorem existsAt_of_mem_files (fs : FS) (d : FPath) (n : String) (g : FileEnt)
    (hg : g ∈ fs.files) (hd : g.dir = d) (hn : g.name = n) :
    fs.existsAt d n = true := by
  unfold FS.existsAt FS.isFileAt
  rw [Bool.or_eq_true]
  left
  rw [List.any_eq_true]
  exact ⟨g, hg, by rw [hd, hn]; simp⟩

/-- C2: when the computed destination path (category directory / original
name) already has an occupant — a state in which the category directory
itself exists, so the `mkdir(exist_ok=True)` at line 65 is a no-op — the
move step succeeds and targets the name obtained by inserting the
`YYYYMMDD_HHMMSS` timestamp between the original stem and extension; that
name differs from the original, the pre-existing occupant survives with its
content untouched, the moved file appears under the timestamped name with
its own content, and a success record is appended. -/
theorem collision_rename (fault : FileEnt → Option String) (now : PyDateTime)
    (st : OrganizerState) (fs : FS) (f occ : FileEnt)
    (hocc : occ ∈ fs.files)
    (hoccdir : occ.dir = st.destination_dir ++ [get_file_category f])
    (hoccname : occ.name = f.name)
    (hcatdir : fs.isDirAt (st.destination_dir ++ [get_file_category f]) = true)
    (hfault : fault f = none)
    (hdiff : f.dir ≠ st.destination_dir ++ [get_file_category f]) :
    ∃ st1 fs1,
      processOne fault now st fs (f, get_file_category f) = Except.ok (st1, fs1)
      ∧ pyStem f.name ++ "_" ++ strftimeTimestamp now ++ pySuffix f.name ≠ f.name
      ∧ occ ∈ fs1.files
      ∧ ({ dir := st.destination_dir ++ [get_file_category f],
           name := pyStem f.name ++ "_" ++ strftimeTimestamp now ++ pySuffix f.name,
           content := f.content } : FileEnt) ∈ fs1.files
      ∧ st1.moved_files = st.moved_files ++ [(f.name, get_file_category f)] := by
  have hne := timestamped_name_ne f.name now
  have hmk : mkdirResult fs st.destination_dir (get_file_category f) = fs :=
    mkdirResult_eq_of_dir fs st.destination_dir (get_file_category f) hcatdir
  have hEx : FS.existsAt fs (st.destination_dir ++ [get_file_category f]) f.name = true :=
    existsAt_of_mem_files fs _ _ occ hocc hoccdir hoccname
  refine ⟨(processOneOk fault now st fs (f, get_file_category f)).1,
          (processOneOk fault now st fs (f, get_file_category f)).2,
          processOne_eq_ok_of_dir fault now st fs (f, get_file_category f) hcatdir,
          hne, ?_, ?_, ?_⟩
  · simp only [processOneOk, hfault, hmk, hEx, if_pos]
    refine List.mem_append.mpr (Or.inl (List.mem_filter.mpr ⟨List.mem_filter.mpr ⟨hocc, ?_⟩, ?_⟩))
    · simp only [Bool.not_eq_true', Bool.and_eq_false_iff, beq_eq_false_iff_ne, ne_eq]
      left
      rw [hoccdir]
      exact fun hh => hdiff hh.symm
    · simp only [Bool.not_eq_true', Bool.and_eq_false_iff, beq_eq_false_iff_ne, ne_eq]
      right
      rw [hoccname]
      exact fun hh => hne hh.symm
  · simp only [processOneOk, hfault, hmk, hEx, if_pos]
    exact List.mem_append.mpr (Or.inr (by simp))
  · rw [processOneOk_state_ok fault now st fs (f, get_file_category f) hfault]

/-! ## Partial-failure isolation (claim C4) -/

/-- The first file of the C4 scenarios. -/
def c4A : FileEnt := { dir := ["s"], name := "a.txt", content := "A" }

/-- The middle file of the C4 scenarios, whose move is made to fail. -/
def c4B : FileEnt := { dir := ["s"], name := "b.pdf", content := "B" }

/-- The third file of the C4 scenarios. -/
def c4C : FileEnt := { dir := ["s"], name := "c.mp3", content := "C" }

/-- The C4 fault oracle: only moving `b.pdf` fails, with a permission error. -/
def c4Fault : FileEnt → Option String :=
  fun f => if f.name == "b.pdf" then some "Permission denied" else none

/-- The C4 witness filesystem: the three files organized in place. -/
def c4FS : FS := { dirs := [[], ["s"]], files := [c4A, c4B, c4C] }

/-- The C4 counterexample filesystem: the three files in source `s`, and a
regular file named `Music` occupying that category path inside the existing
destination directory `d`. -/
def c4xFS : FS :=
  { dirs := [[], ["s"], ["d"]],
    files := [c4A, c4B, c4C, { dir := ["d"], name := "Music", content := "blocker" }] }

/-- C4 counterexample: a run in which the middle file's move fails (and is
recorded), yet the third file is never processed and gets no outcome record,
because its category directory `d/Music` is blocked by a regular file and
the `mkdir` at line 65 — outside the `try` — raises an uncaught
`FileExistsError` that aborts the run.  So a failure in one file's step can
abort the run, contradicting the claim that every other snapshot file is
still processed and reported. -/
theorem move_failure_claim_aborted_by_mkdir :
    c4Fault c4B = some "Permission denied"
    ∧ c4xFS.files.filter (fun f => f.dir == ["s"]) = [c4A, c4B, c4C]
    ∧ (organize_files c4Fault ⟨2024, 1, 1, 0, 0, 0⟩
        (FileOrganizer.init ["s"] (some ["d"])) c4xFS false).1.moved_files
      = [("a.txt", "Documents")]
    ∧ (organize_files c4Fault ⟨2024, 1, 1, 0, 0, 0⟩
        (FileOrganizer.init ["s"] (some ["d"])) c4xFS false).1.errors
      = [("b.pdf", "Permission denied")]
    ∧ (∀ p ∈ (organize_files c4Fault ⟨2024, 1, 1, 0, 0, 0⟩
        (FileOrganizer.init ["s"] (some ["d"])) c4xFS false).1.moved_files, p.1 ≠ "c.mp3")
    ∧ (∀ p ∈ (organize_files c4Fault ⟨2024, 1, 1, 0, 0, 0⟩
        (FileOrganizer.init ["s"] (some ["d"])) c4xFS false).1.errors, p.1 ≠ "c.mp3")
    ∧ (organize_files c4Fault ⟨2024, 1, 1, 0, 0, 0⟩
        (FileOrganizer.init ["s"] (some ["d"])) c4xFS false).2.2.1
      = RunResult.raised "FileExistsError" := by decide

/-- C4 (amended): in a three-file run where only the middle file's move
faults, and each file's category directory can be created (the destination
directory exists and no regular file occupies any of the three category
paths — otherwise the uncaught `mkdir` at line 65 aborts the run), the first
and third files are still processed and recorded as successes in order, the
failure list gains exactly the one record for the middle file, and the
middle file itself is left in place in the source directory. -/
theorem partial_failure_isolation (fault : FileEnt → Option String) (now : PyDateTime)
    (st : OrganizerState) (fs : FS) (a b c : FileEnt) (err : String)
    (hdir : fs.isDirAt st.source_dir = true)
    (hsnap : fs.files.filter (fun f => f.dir == st.source_dir) = [a, b, c])
    (hfa : fault a = none) (hfb : fault b = some err) (hfc : fault c = none)
    (hab : a.name ≠ b.name) (hbc : b.name ≠ c.name)
    (hca : st.destination_dir ++ [get_file_category a] ≠ st.source_dir)
    (hcc : st.destination_dir ++ [get_file_category c] ≠ st.source_dir)
    (hdest : fs.isDirAt st.destination_dir = true)
    (hnba : fs.isFileAt st.destination_dir (get_file_category a) = false)
    (hnbb : fs.isFileAt st.destination_dir (get_file_category b) = false)
    (hnbc : fs.isFileAt st.destination_dir (get_file_category c) = false) :
    (organize_files fault now st fs false).1.moved_files
        = st.moved_files ++ [(a.name, get_file_category a), (c.name, get_file_category c)]
    ∧ (organize_files fault now st fs false).1.errors = st.errors ++ [(b.name, err)]
    ∧ b ∈ (organize_files fault now st fs false).2.1.files := by
  have hex : fs.pathExists st.source_dir = true := by
    unfold FS.pathExists
    rw [hdir]
    rfl
  set P1 := processOneOk fault now st fs (a, get_file_category a) with hP1
  set P2 := processOneOk fault now P1.1 P1.2 (b, get_file_category b) with hP2
  set P3 := processOneOk fault now P2.1 P2.2 (c, get_file_category c) with hP3
  have hpA : processOne fault now st fs (a, get_file_category a) = Except.ok P1 := by
    rw [hP1]
    exact processOne_eq_ok fault now st fs (a, get_file_category a) hdest hnba
  have hs1 : P1.1 = { st with moved_files := st.moved_files ++ [(a.name, get_file_category a)] } := by
    rw [hP1]
    exact processOneOk_state_ok fault now st fs (a, get_file_category a) hfa
  have hdc1 : P1.1.destination_dir = st.destination_dir := by rw [hs1]
  have hdest1 : P1.2.isDirAt st.destination_dir = true := by
    rw [hP1]
    exact processOneOk_isDirAt fault now st fs (a, get_file_category a) st.destination_dir hdest
  have hnbb1 : P1.2.isFileAt st.destination_dir (get_file_category b) = false := by
    rw [hP1]
    exact processOneOk_isFileAt_preserved fault now st fs (a, get_file_category a)
      st.destination_dir (get_file_category b) hnbb
      (append_singleton_ne st.destination_dir (get_file_category a))
  have hnbc1 : P1.2.isFileAt st.destination_dir (get_file_category c) = false := by
    rw [hP1]
    exact processOneOk_isFileAt_preserved fault now st fs (a, get_file_category a)
      st.destination_dir (get_file_category c) hnbc
      (append_singleton_ne st.destination_dir (get_file_category a))
  have hpB : processOne fault now P1.1 P1.2 (b, get_file_category b) = Except.ok P2 := by
    rw [hP2]
    apply processOne_eq_ok
    · rw [hdc1]
      exact hdest1
    · rw [hdc1]
      exact hnbb1
  have hs2 : P2.1 = { P1.1 with errors := P1.1.errors ++ [(b.name, err)] } := by
    rw [hP2]
    exact processOneOk_state_fault fault now P1.1 P1.2 (b, get_file_category b) err hfb
  have hdc2 : P2.1.destination_dir = st.destination_dir := by
    rw [hs2]
    exact hdc1
  have hfiles2 : P2.2.files = P1.2.files := by
    rw [hP2]
    exact processOneOk_files_fault fault now P1.1 P1.2 (b, get_file_category b) err hfb
  have hdest2 : P2.2.isDirAt st.destination_dir = true := by
    rw [hP2]
    exact processOneOk_isDirAt fault now P1.1 P1.2 (b, get_file_category b)
      st.destination_dir hdest1
  have hnbc2 : P2.2.isFileAt st.destination_dir (get_file_category c) = false := by
    rw [hP2, ← hdc1]
    refine processOneOk_isFileAt_preserved fault now P1.1 P1.2 (b, get_file_category b)
      P1.1.destination_dir (get_file_category c) ?_
      (append_singleton_ne P1.1.destination_dir (get_file_category b))
    rw [hdc1]
    exact hnbc1
  have hpC : processOne fault now P2.1 P2.2 (c, get_file_category c) = Except.ok P3 := by
    rw [hP3]
    apply processOne_eq_ok
    · rw [hdc2]
      exact hdest2
    · rw [hdc2]
      exact hnbc2
  have hs3 : P3.1 = { P2.1 with moved_files := P2.1.moved_files ++ [(c.name, get_file_category c)] } := by
    rw [hP3]
    exact processOneOk_state_ok fault now P2.1 P2.2 (c, get_file_category c) hfc
  obtain ⟨hbfs, hbdir⟩ : b ∈ fs.files ∧ b.dir = st.source_dir := by
    have hb : b ∈ fs.files.filter (fun f => f.dir == st.source_dir) := by
      rw [hsnap]
      simp
    have hb2 := List.mem_filter.mp hb
    exact ⟨hb2.1, by simpa using hb2.2⟩
  have hb1 : b ∈ P1.2.files := by
    rw [hP1]
    exact processOneOk_files_mem fault now st fs (a, get_file_category a) b hbfs
      (Or.inr (fun h => hab h.symm))
      (by rw [hbdir]; exact fun h => hca h.symm)
  have hb2 : b ∈ P2.2.files := by
    rw [hfiles2]
    exact hb1
  have hb3 : b ∈ P3.2.files := by
    rw [hP3]
    exact processOneOk_files_mem fault now P2.1 P2.2 (c, get_file_category c) b hb2
      (Or.inr hbc)
      (by rw [hdc2, hbdir]; exact fun h => hcc h.symm)
  have hredux : organize_files fault now st fs false = (P3.1, P3.2, RunResult.completed, []) := by
    simp [organize_files, hex, hdir, hsnap, runLoop, hpA, hpB, hpC]
  refine ⟨?_, ?_, ?_⟩
  · rw [hredux]
    show P3.1.moved_files = _
    rw [hs3, hs2, hs1]
    simp
  · rw [hredux]
    show P3.1.errors = _
    rw [hs3, hs2, hs1]
  · rw [hredux]
    exact hb3

/-- Witness for the amended C4 at the concrete three-file scenario. -/
theorem partial_failure_isolation_witness :
    (organize_files c4Fault ⟨2024, 1, 1, 0, 0, 0⟩
        (FileOrganizer.init ["s"] none) c4FS false).1.moved_files
      = (FileOrganizer.init ["s"] none).moved_files
          ++ [(c4A.name, get_file_category c4A), (c4C.name, get_file_category c4C)]
    ∧ (organize_files c4Fault ⟨2024, 1, 1, 0, 0, 0⟩
        (FileOrganizer.init ["s"] none) c4FS false).1.errors
      = (FileOrganizer.init ["s"] none).errors ++ [(c4B.name, "Permission denied")]
    ∧ c4B ∈ (organize_files c4Fault ⟨2024, 1, 1, 0, 0, 0⟩
        (FileOrganizer.init ["s"] none) c4FS false).2.1.files :=
  partial_failure_isolation c4Fault ⟨2024, 1, 1, 0, 0, 0⟩
    (FileOrganizer.init ["s"] none) c4FS c4A c4B c4C "Permission denied"
    (by decide) (by decide) (by decide) (by decide) (by decide)
    (by decide) (by decide) (by decide) (by decide)
    (by decide) (by decide) (by decide) (by decide)

/-- The file being moved in the C2 witness scenario. -/
def c2F : FileEnt := { dir := ["s"], name := "x.txt", content := "new" }

/-- The pre-existing occupant of the destination path in the C2 witness. -/
def c2Occ : FileEnt := { dir := ["s", "Documents"], name := "x.txt", content := "old" }

/-- The C2 witness filesystem: `x.txt` in the source and another `x.txt`
already in the Documents category directory. -/
def c2FS : FS := { dirs := [[], ["s"], ["s", "Documents"]], files := [c2F, c2Occ] }

/-- Witness for C2 at a concrete collision at `23:59:59` on `2024-01-31`. -/
theorem collision_rename_witness :
    ∃ st1 fs1,
      processOne (fun _ => none) ⟨2024, 1, 31, 23, 59, 59⟩
          (FileOrganizer.init ["s"] none) c2FS (c2F, get_file_category c2F) = Except.ok (st1, fs1)
      ∧ pyStem c2F.name ++ "_" ++ strftimeTimestamp ⟨2024, 1, 31, 23, 59, 59⟩
          ++ pySuffix c2F.name ≠ c2F.name
      ∧ c2Occ ∈ fs1.files
      ∧ ({ dir := (FileOrganizer.init ["s"] none).destination_dir ++ [get_file_category c2F],
           name := pyStem c2F.name ++ "_" ++ strftimeTimestamp ⟨2024, 1, 31, 23, 59, 59⟩
             ++ pySuffix c2F.name,
           content := c2F.content } : FileEnt) ∈ fs1.files
      ∧ st1.moved_files
          = (FileOrganizer.init ["s"] none).moved_files ++ [(c2F.name, get_file_category c2F)] :=
  collision_rename (fun _ => none) ⟨2024, 1, 31, 23, 59, 59⟩ (FileOrganizer.init ["s"] none)
    c2FS c2F c2Occ (by decide) (by decide) (by decide) (by decide) rfl (by decide)

end FileOrg
